import Mathlib

/- Verification of the go-matrix-bot core (matrix.go): a shallow embedding of
   configuration validation, outbound event construction (SendText, SendHTML,
   SendReply), inbound event dispatch (message fan-out and auto-join on
   invite), the pre-sync bootstrap of Bot.Run, the post-bootstrap wait, the
   sync goroutine body, and Bot.Stop. -/

namespace Matrix

/-- Configuration of the bot, mirroring `Config` in matrix.go. -/
structure Config where
  homeserver : String
  username : String
  password : String
  database : String
  debug : Bool
deriving DecidableEq, Repr

/-- Mirrors `Config.Validate`: `some msg` is the returned error, `none` is nil. -/
def Config.validate (c : Config) : Option String :=
  if c.homeserver = "" then some "matrix: homeserver URL is required"
  else if c.username = "" then some "matrix: username is required"
  else if c.password = "" then some "matrix: password is required"
  else none

/-- Mirrors the `event.Mentions` value built by `Bot.SendReply`
    (`UserIDs` and `Room`). -/
structure Mentions where
  userIDs : List String
  room : Bool
deriving DecidableEq, Repr

/-- Mirrors the fields of `event.MessageEventContent` that the send operations
    populate: `MsgType`, `Body`, `Format`, `FormattedBody`, `Mentions`
    (`none` models the nil pointer). -/
structure MessageEventContent where
  msgType : String
  body : String
  format : String
  formattedBody : String
  mentions : Option Mentions
deriving DecidableEq, Repr

/-- The mautrix constant `event.MsgText`. -/
def msgText : String := "m.text"

/-- The mautrix constant `event.FormatHTML`. -/
def formatHTML : String := "org.matrix.custom.html"

/-- The mautrix constant `event.EventMessage` (the m.room.message event type). -/
def eventMessage : String := "m.room.message"

/-- An outbound event as handed to `client.SendMessageEvent`:
    event type, room id, and content. -/
structure OutboundEvent where
  eventType : String
  roomID : String
  content : MessageEventContent
deriving DecidableEq, Repr

/-- The event constructed and sent by `Bot.SendHTML`: msgtype m.text, plain
    body `text`, HTML format, formatted body `html`, no mentions. -/
def sendHTMLEvent (roomID text html : String) : OutboundEvent :=
  { eventType := eventMessage
  , roomID := roomID
  , content :=
      { msgType := msgText
      , body := text
      , format := formatHTML
      , formattedBody := html
      , mentions := none } }

/-- The event constructed and sent by `Bot.SendReply`: same base content as
    `Bot.SendHTML`; when `len(mentionUserIDs) > 0` it additionally sets
    `Mentions` with the given user ids and `Room: true`. -/
def sendReplyEvent (roomID text html : String) (mentionUserIDs : List String) :
    OutboundEvent :=
  let base : MessageEventContent :=
    { msgType := msgText
    , body := text
    , format := formatHTML
    , formattedBody := html
    , mentions := none }
  let content :=
    if mentionUserIDs.length > 0 then
      { base with mentions := some { userIDs := mentionUserIDs, room := true } }
    else base
  { eventType := eventMessage, roomID := roomID, content := content }

/-- An inbound m.room.message event as the dispatch closure in `Bot.Run` sees
    it: `evt.RoomID`, `evt.Sender`, and `evt.Content.AsMessage()`. -/
structure InboundMessage where
  roomID : String
  sender : String
  content : MessageEventContent
deriving DecidableEq, Repr

/-- One handler invocation performed by the message dispatch closure: which
    handler was called and the arguments it received. `H` is the handler
    identity (handlers are opaque callbacks). -/
structure Invocation (H : Type) where
  handler : H
  roomID : String
  sender : String
  content : MessageEventContent
deriving DecidableEq, Repr

/-- The message dispatch closure registered by `Bot.Run` via
    `syncer.OnEventType(event.EventMessage, ...)`:
    `for _, handler := range b.handlers { handler(ctx, evt.RoomID, evt.Sender, msg) }`.
    Returns the trace of invocations, in loop order. `handlers` is the list
    built by `Bot.OnMessage` (append, so registration order). -/
def dispatchMessage {H : Type} (handlers : List H) (evt : InboundMessage) :
    List (Invocation H) :=
  handlers.map fun h =>
    { handler := h, roomID := evt.roomID, sender := evt.sender, content := evt.content }

/-- Result of invoking one Go handler: normal return, or a panic carrying a
    message. -/
inductive HandlerOutcome
  | ok
  | panics (msg : String)
deriving DecidableEq, Repr

/-- A handler together with its behaviour when invoked on the dispatched
    event. -/
structure PanickyHandler where
  name : String
  outcome : HandlerOutcome
deriving DecidableEq, Repr

/-- The same dispatch loop under Go panic semantics. The loop body
    `handler(ctx, evt.RoomID, evt.Sender, msg)` is not wrapped in any
    `recover`, so a panicking handler aborts the loop and the panic propagates
    out of the closure into the sync task. Returns the invocations that
    actually happened and the propagated panic, if any. -/
def runHandlersGo (evt : InboundMessage) :
    List PanickyHandler → List (Invocation String) × Option String
  | [] => ([], none)
  | h :: rest =>
    let inv : Invocation String :=
      { handler := h.name, roomID := evt.roomID, sender := evt.sender, content := evt.content }
    match h.outcome with
    | .ok =>
      let (tr, p) := runHandlersGo evt rest
      (inv :: tr, p)
    | .panics m => ([inv], some m)

/-- An inbound m.room.member event as the StateMember closure sees it:
    `evt.GetStateKey()` (the affected user id; empty string when absent),
    `evt.Sender`, `evt.RoomID`, and `evt.Content.AsMember().Membership`. -/
structure MemberEvent where
  stateKey : String
  sender : String
  roomID : String
  membership : String
deriving DecidableEq, Repr

/-- The mautrix constant `event.MembershipInvite`. -/
def membershipInvite : String := "invite"

/-- A log line emitted by the StateMember closure: the error line
    "Failed to join room after invite" with the join error, room id and
    inviter, or the info line "Joined room after invite". -/
inductive JoinLog
  | errorLog (err roomID inviter : String)
  | infoLog (roomID inviter : String)
deriving DecidableEq, Repr

/-- Observable behaviour of the StateMember closure: the rooms passed to
    `client.JoinRoomByID`, in call order, and the log lines emitted. The
    closure returns nothing, so there is no error channel to propagate a join
    failure through. -/
structure MemberDispatchResult where
  joinCalls : List String
  logs : List JoinLog
deriving DecidableEq, Repr

/-- The auto-join closure registered by `Bot.Run` via
    `syncer.OnEventType(event.StateMember, ...)`. `botUserID` is
    `b.client.UserID.String()`; `joinErr` is the outcome of the single
    `JoinRoomByID` call (`some e` when it fails). -/
def dispatchMember (botUserID : String) (evt : MemberEvent) (joinErr : Option String) :
    MemberDispatchResult :=
  if evt.stateKey = botUserID ∧ evt.membership = membershipInvite then
    match joinErr with
    | some e => { joinCalls := [evt.roomID], logs := [.errorLog e evt.roomID evt.sender] }
    | none => { joinCalls := [evt.roomID], logs := [.infoLog evt.roomID evt.sender] }
  else { joinCalls := [], logs := [] }

/-- The wrapped error returned by `Bot.Run` before the sync loop starts; each
    constructor is one `fmt.Errorf("...: %w", err)` site and so identifies the
    failed phase. -/
inductive RunError
  | createClient (cause : String)
  | createCryptoHelper (cause : String)
  | initCrypto (cause : String)
deriving DecidableEq, Repr

/-- The wrapper strings used by the three `fmt.Errorf` sites in `Bot.Run`. -/
def RunError.message : RunError → String
  | .createClient e => "matrix: failed to create client: " ++ e
  | .createCryptoHelper e => "matrix: failed to create crypto helper: " ++ e
  | .initCrypto e => "matrix: failed to init crypto: " ++ e

/-- Outcomes of the external calls `Bot.Run` makes before the sync loop:
    `mautrix.NewClient`, `cryptohelper.NewCryptoHelper`, and
    `CryptoHelper.Init` (`some e` models a non-nil error). -/
structure RunEnv where
  newClientErr : Option String
  newCryptoHelperErr : Option String
  cryptoInitErr : Option String
deriving DecidableEq, Repr

/-- The `Bot` fields `Bot.Run` assigns, plus whether the sync goroutine was
    launched: `b.client`, the two `OnEventType` route registrations,
    `b.crypto`, `b.cancelSync`, and the `go func()` start. -/
structure BotState where
  clientSet : Bool
  messageRouteSet : Bool
  memberRouteSet : Bool
  cryptoSet : Bool
  cancelSyncSet : Bool
  syncStarted : Bool
deriving DecidableEq, Repr

/-- The `Bot` state produced by `NewBot`: only `config` is set, every handle
    is nil and nothing is registered or started. -/
def initialBotState : BotState :=
  { clientSet := false, messageRouteSet := false, memberRouteSet := false,
    cryptoSet := false, cancelSyncSet := false, syncStarted := false }

/-- The part of `Bot.Run` up to and including the `go func()` launch, step by
    step in source order: create client (assign `b.client`), register the two
    event routes, create the crypto helper, run `Init`, assign `b.crypto`,
    then set `b.cancelSync` and start the sync goroutine. Returns the error
    `Bot.Run` would return at that point (`none` when it reaches the blocking
    wait) together with the `Bot` state at that moment. -/
def runBootstrap (env : RunEnv) (b : BotState) : Option RunError × BotState :=
  match env.newClientErr with
  | some e => (some (.createClient e), b)
  | none =>
    let b1 := { b with clientSet := true }
    let b2 := { b1 with messageRouteSet := true, memberRouteSet := true }
    match env.newCryptoHelperErr with
    | some e => (some (.createCryptoHelper e), b2)
    | none =>
      match env.cryptoInitErr with
      | some e => (some (.initCrypto e), b2)
      | none =>
        let b3 := { b2 with cryptoSet := true }
        (none, { b3 with cancelSyncSet := true, syncStarted := true })

/-- Whether `syncCtx` is done. `syncCtx, cancelSync := context.WithCancel(ctx)`,
    so it is done exactly when the caller-supplied `ctx` is done or
    `cancelSync` has been called; the sync goroutine exiting does not cancel
    it. -/
def syncCtxDone (externalDone cancelSyncCalled : Bool) : Bool :=
  externalDone || cancelSyncCalled

/-- The tail of `Bot.Run` after a successful bootstrap: `<-syncCtx.Done()`
    then `return nil`. `some none` means Run has returned (with nil error);
    `none` means Run is still blocked. `streamExited` records whether the sync
    goroutine has already exited (for example after a sync error); the wait
    reads only `syncCtx.Done()`. -/
def runAfterBootstrap (externalDone cancelSyncCalled streamExited : Bool) :
    Option (Option RunError) :=
  if syncCtxDone externalDone cancelSyncCalled then some none else none

/-- The error returned by `client.SyncWithContext`, as classified by
    `errors.Is(syncErr, context.Canceled)`. -/
inductive SyncErr
  | canceled
  | other (msg : String)
deriving DecidableEq, Repr

/-- Observable outcome of the sync goroutine body in `Bot.Run`: the
    "Sync error" lines logged, whether the deferred `syncWait.Done()` ran,
    how many times `SyncWithContext` was called, and whether the goroutine
    panicked. -/
structure SyncTaskOutcome where
  errorLogs : List String
  waitGroupDone : Bool
  syncCalls : Nat
  panicked : Bool
deriving DecidableEq, Repr

/-- The sync goroutine body: `defer b.syncWait.Done()`, one call to
    `SyncWithContext`, and
    `if syncErr != nil && !errors.Is(syncErr, context.Canceled)` log the
    error; then the goroutine simply returns (no retry loop, no panic). -/
def syncTask (syncErr : Option SyncErr) : SyncTaskOutcome :=
  { errorLogs :=
      match syncErr with
      | some (.other m) => [m]
      | some .canceled => []
      | none => []
  , waitGroupDone := true
  , syncCalls := 1
  , panicked := false }

/-- The `Bot` fields read by `Bot.Stop`: whether `b.cancelSync` is non-nil,
    the `syncWait` counter (0 when the sync goroutine was never started or has
    exited), and whether `b.crypto` is non-nil. -/
structure LifecycleState where
  cancelSyncSet : Bool
  syncWaitCount : Nat
  cryptoSet : Bool
deriving DecidableEq, Repr

/-- Observable effects of one `Bot.Stop` call: whether `cancelSync` was
    invoked, whether `syncWait.Wait()` had to block for the sync goroutine,
    whether `crypto.Close()` was invoked, and the returned error (`none` is
    nil). -/
structure StopOutcome where
  cancelCalled : Bool
  blockedOnSync : Bool
  cryptoClosed : Bool
  ret : Option String
deriving DecidableEq, Repr

/-- `Bot.Stop`: call `b.cancelSync` when non-nil, `syncWait.Wait()`, then
    `b.crypto.Close()` when `b.crypto` is non-nil, else return nil.
    `closeErr` is the result `Close` would give. `Stop` assigns none of the
    fields, and `Wait` returns once the counter is 0, so the state after the
    call differs only in the counter having drained to 0. -/
def stop (s : LifecycleState) (closeErr : Option String) :
    StopOutcome × LifecycleState :=
  ({ cancelCalled := s.cancelSyncSet
   , blockedOnSync := decide (0 < s.syncWaitCount)
   , cryptoClosed := s.cryptoSet
   , ret := if s.cryptoSet then closeErr else none },
   { s with syncWaitCount := 0 })

/-- A sample inbound message event used by the concrete witnesses. -/
def sampleInbound : InboundMessage :=
  { roomID := "!room:example.org"
  , sender := "@alice:example.org"
  , content :=
      { msgType := msgText, body := "hi", format := "", formattedBody := ""
      , mentions := none } }

/-- Claim C1: dispatching one inbound message event invokes exactly the N
registered handlers, in registration order, each invocation receiving the
event's room id, sender and message content. -/
theorem message_dispatch_invokes_all {H : Type} (handlers : List H)
    (evt : InboundMessage) :
    (dispatchMessage handlers evt).length = handlers.length ∧
    ∀ i, ∀ hi : i < handlers.length,
      (dispatchMessage handlers evt)[i]? =
        some { handler := handlers.get ⟨i, hi⟩, roomID := evt.roomID,
               sender := evt.sender, content := evt.content } := by
  constructor
  · simp [dispatchMessage]
  · intro i hi
    simp [dispatchMessage, List.getElem?_eq_getElem hi]

/-- Witness for C1: two registered handlers, the second invocation carries the
second handler and the event's arguments. -/
theorem message_dispatch_invokes_all_witness :
    (dispatchMessage ["h0", "h1"] sampleInbound).length = 2 ∧
    (dispatchMessage ["h0", "h1"] sampleInbound)[1]? =
      some { handler := "h1", roomID := sampleInbound.roomID,
             sender := sampleInbound.sender, content := sampleInbound.content } := by
  have h := message_dispatch_invokes_all (H := String) ["h0", "h1"] sampleInbound
  exact ⟨h.1, h.2 1 (by decide)⟩

/-- Claim C2: evaluation at the failing input. With two handlers where the
first panics, the dispatch loop — whose body has no recover — performs only
the first invocation; the second handler is never invoked and the panic
propagates out of the closure into the sync task. -/
theorem handler_panic_aborts_dispatch :
    (runHandlersGo sampleInbound
      [{ name := "h0", outcome := .panics "boom" },
       { name := "h1", outcome := .ok }]).1 =
      [{ handler := "h0", roomID := sampleInbound.roomID,
         sender := sampleInbound.sender, content := sampleInbound.content }] ∧
    (runHandlersGo sampleInbound
      [{ name := "h0", outcome := .panics "boom" },
       { name := "h1", outcome := .ok }]).2 = some "boom" := by
  exact ⟨rfl, rfl⟩

/-- Claim C3: the auto-join closure issues exactly one join call — for the
event's room — iff the event's state key equals the bot's user id and the
membership is invite, and no join call otherwise; a failed join yields
exactly one error log carrying the room id and the inviter, and the closure,
returning nothing, neither retries nor propagates the failure. -/
theorem autojoin_exactly_on_self_invite (bot : String) (evt : MemberEvent)
    (joinErr : Option String) :
    ((dispatchMember bot evt joinErr).joinCalls =
      if evt.stateKey = bot ∧ evt.membership = membershipInvite
      then [evt.roomID] else []) ∧
    (∀ e, joinErr = some e → evt.stateKey = bot → evt.membership = membershipInvite →
      (dispatchMember bot evt joinErr).logs =
        [JoinLog.errorLog e evt.roomID evt.sender]) := by
  constructor
  · by_cases h : evt.stateKey = bot ∧ evt.membership = membershipInvite
    · cases joinErr <;> simp [dispatchMember, h]
    · simp [dispatchMember, h]
  · intro e he h1 h2
    subst he
    simp [dispatchMember, h1, h2]

/-- Witness for C3: an invite addressed to the bot itself with a failing join
produces one join call for the room and one error log with room and inviter. -/
theorem autojoin_exactly_on_self_invite_witness :
    (dispatchMember "@bot:hs"
        { stateKey := "@bot:hs", sender := "@alice:hs", roomID := "!r:hs",
          membership := "invite" } (some "M_FORBIDDEN")).joinCalls = ["!r:hs"] ∧
    (dispatchMember "@bot:hs"
        { stateKey := "@bot:hs", sender := "@alice:hs", roomID := "!r:hs",
          membership := "invite" } (some "M_FORBIDDEN")).logs =
      [JoinLog.errorLog "M_FORBIDDEN" "!r:hs" "@alice:hs"] := by
  have h := autojoin_exactly_on_self_invite "@bot:hs"
    { stateKey := "@bot:hs", sender := "@alice:hs", roomID := "!r:hs",
      membership := "invite" } (some "M_FORBIDDEN")
  refine ⟨?_, h.2 "M_FORBIDDEN" rfl rfl rfl⟩
  have h1 := h.1
  simpa [membershipInvite] using h1

/-- The run environment where client creation succeeds but crypto-helper
creation fails with a concrete cause. -/
def cryptoFailEnv : RunEnv :=
  { newClientErr := none
  , newCryptoHelperErr := some "db locked"
  , cryptoInitErr := none }

/-- Claim C4 counterexample: when crypto-helper creation fails, `Bot.Run`
returns a wrapped error but the bot is not left in its pre-bootstrap state:
`b.client` is already assigned and both event routes are installed, so
leftover state remains. -/
theorem bootstrap_leftover_state_on_crypto_failure :
    (runBootstrap cryptoFailEnv initialBotState).2 ≠ initialBotState ∧
    (runBootstrap cryptoFailEnv initialBotState).1 =
      some (RunError.createCryptoHelper "db locked") ∧
    (runBootstrap cryptoFailEnv initialBotState).2.clientSet = true := by
  refine ⟨?_, rfl, rfl⟩
  decide

/-- Claim C4 (amended): the pre-sync part of `Bot.Run` either fully succeeds —
no error, client and crypto handles set, both routes installed, stream loop
started — or returns an error whose constructor identifies the first failed
phase, with the crypto handle never set, the cancel function never set and
the stream loop never started; the client handle and the two event routes
installed before a later failing step do remain set. -/
theorem bootstrap_phase_outcomes (env : RunEnv) :
    ((runBootstrap env initialBotState).1 = none →
      (runBootstrap env initialBotState).2 =
        { clientSet := true, messageRouteSet := true, memberRouteSet := true,
          cryptoSet := true, cancelSyncSet := true, syncStarted := true }) ∧
    (∀ e, (runBootstrap env initialBotState).1 = some e →
      (runBootstrap env initialBotState).2.cryptoSet = false ∧
      (runBootstrap env initialBotState).2.syncStarted = false ∧
      (runBootstrap env initialBotState).2.cancelSyncSet = false ∧
      ((∃ c, env.newClientErr = some c ∧ e = RunError.createClient c ∧
          (runBootstrap env initialBotState).2 = initialBotState) ∨
       (∃ c, env.newClientErr = none ∧ env.newCryptoHelperErr = some c ∧
          e = RunError.createCryptoHelper c ∧
          (runBootstrap env initialBotState).2.clientSet = true ∧
          (runBootstrap env initialBotState).2.messageRouteSet = true ∧
          (runBootstrap env initialBotState).2.memberRouteSet = true) ∨
       (∃ c, env.newClientErr = none ∧ env.newCryptoHelperErr = none ∧
          env.cryptoInitErr = some c ∧ e = RunError.initCrypto c ∧
          (runBootstrap env initialBotState).2.clientSet = true ∧
          (runBootstrap env initialBotState).2.messageRouteSet = true ∧
          (runBootstrap env initialBotState).2.memberRouteSet = true))) := by
  obtain ⟨nce, nche, cie⟩ := env
  cases nce <;> cases nche <;> cases cie <;>
    simp [runBootstrap, initialBotState]

/-- Witness for C4 (amended) at a concrete crypto-helper failure: the crypto
handle is not set and the stream loop is not started. -/
theorem bootstrap_phase_outcomes_witness :
    (runBootstrap cryptoFailEnv initialBotState).2.cryptoSet = false ∧
    (runBootstrap cryptoFailEnv initialBotState).2.syncStarted = false := by
  have h := (bootstrap_phase_outcomes cryptoFailEnv).2
    (RunError.createCryptoHelper "db locked") rfl
  exact ⟨h.1, h.2.1⟩

/-- Claim C5 counterexample: `Bot.SendHTML` called with an empty text argument
sends an event whose plain-text body is empty, so the fallback body is not
non-empty for all inputs. -/
theorem sendhtml_empty_text_gives_empty_body :
    (sendHTMLEvent "!room:example.org" "" "<b>hi</b>").content.body = "" := rfl

/-- Claim C5 (amended): the event sent by `Bot.SendHTML` always carries the
plain-text body field alongside the rich body — the body equals the given
text, the formatted body the given html, and the HTML format marker is always
set — but the fallback body is non-empty exactly when the given text is
non-empty; nothing synthesizes a fallback for empty text. -/
theorem sendhtml_dual_body (roomID text html : String) :
    (sendHTMLEvent roomID text html).content.body = text ∧
    (sendHTMLEvent roomID text html).content.formattedBody = html ∧
    (sendHTMLEvent roomID text html).content.format = formatHTML ∧
    ((sendHTMLEvent roomID text html).content.body ≠ "" ↔ text ≠ "") :=
  ⟨rfl, rfl, rfl, Iff.rfl⟩

/-- Claim C6: `Bot.SendReply` with a non-empty mention list sets the Mentions
field with exactly the given user ids, in order, together with the room-wide
mention flag set to true. -/
theorem sendreply_nonempty_mentions (roomID text html : String)
    (ids : List String) (h : ids ≠ []) :
    (sendReplyEvent roomID text html ids).content.mentions =
      some { userIDs := ids, room := true } := by
  cases ids with
  | nil => exact absurd rfl h
  | cons a l => simp [sendReplyEvent]

/-- Witness for C6: one mentioned user. -/
theorem sendreply_nonempty_mentions_witness :
    (sendReplyEvent "!room:example.org" "hi" "<b>hi</b>"
        ["@alice:example.org"]).content.mentions =
      some { userIDs := ["@alice:example.org"], room := true } :=
  sendreply_nonempty_mentions "!room:example.org" "hi" "<b>hi</b>"
    ["@alice:example.org"] (by decide)

/-- Claim C7 counterexample: after bootstrap, `Bot.Run` returns (with nil)
when `cancelSync` is called (as `Bot.Stop` does) even though the
caller-supplied external context is not done, so Run does not return only
when the external context becomes done. -/
theorem run_returns_on_cancel_without_external_done :
    runAfterBootstrap false true false = some none := rfl

/-- Claim C7 (amended): after a successful bootstrap, `Bot.Run` returns, with
nil, exactly when the derived sync context is done, that is when the external
context is done or `cancelSync` has been called; cancelling the external
context always makes Run return, and the sync goroutine exiting early (for
example after a sync error) never by itself makes Run return. -/
theorem run_return_conditions (ext cancelCalled streamExited : Bool) :
    (runAfterBootstrap ext cancelCalled streamExited = some none ↔
      (ext || cancelCalled) = true) ∧
    runAfterBootstrap true cancelCalled streamExited = some none ∧
    runAfterBootstrap false false streamExited = none := by
  cases ext <;> cases cancelCalled <;>
    simp [runAfterBootstrap, syncCtxDone]

/-- Claim C8: `Bot.Stop` on a bot whose stream loop was never started returns
nil, invokes no cancellation, performs no wait on the sync goroutine, closes
no crypto handle, and leaves the lifecycle state unchanged — so a second
`Stop` is the same safe no-op. -/
theorem stop_before_start_idempotent (closeErr closeErr2 : Option String) :
    (stop { cancelSyncSet := false, syncWaitCount := 0, cryptoSet := false }
        closeErr).1 =
      { cancelCalled := false, blockedOnSync := false, cryptoClosed := false,
        ret := none } ∧
    (stop { cancelSyncSet := false, syncWaitCount := 0, cryptoSet := false }
        closeErr).2 =
      { cancelSyncSet := false, syncWaitCount := 0, cryptoSet := false } ∧
    (stop ((stop { cancelSyncSet := false, syncWaitCount := 0, cryptoSet := false }
        closeErr).2) closeErr2).1 =
      { cancelCalled := false, blockedOnSync := false, cryptoClosed := false,
        ret := none } :=
  ⟨rfl, rfl, rfl⟩

/-- Claim C9: the sync goroutine logs no error line when the sync error is the
cancellation error, logs exactly one error line for any other sync error, and
in every case performs a single `SyncWithContext` call (no retry), completes
its WaitGroup, and does not panic. -/
theorem sync_task_error_discipline (syncErr : Option SyncErr) :
    syncTask (some .canceled) =
      { errorLogs := [], waitGroupDone := true, syncCalls := 1, panicked := false } ∧
    (∀ m, syncTask (some (.other m)) =
      { errorLogs := [m], waitGroupDone := true, syncCalls := 1, panicked := false }) ∧
    (syncTask syncErr).panicked = false ∧
    (syncTask syncErr).syncCalls = 1 ∧
    (syncTask syncErr).waitGroupDone = true :=
  ⟨rfl, fun _ => rfl, rfl, rfl, rfl⟩

/-- Claim C10: `Bot.SendReply` with no mention user ids constructs exactly the
event `Bot.SendHTML` constructs for the same room, text and html: same event
type, room id, msgtype, bodies and format, and no Mentions field. -/
theorem sendreply_empty_equals_sendhtml (roomID text html : String) :
    sendReplyEvent roomID text html [] = sendHTMLEvent roomID text html := rfl

end Matrix



